import Mathlib

/-!
Shallow embedding of the QUBITEKK quantum-optics serial drivers
(`bi_photon_source.py`, `coincidence_counter_driver.py`, `motor_driver.py`).

Modelling conventions:
* A transport write is modelled by the string whose UTF-8 encoding the driver
  sends (`str.encode("utf-8")` is injective, so nothing is lost).
* `serial.readline()` results are passed in explicitly as reply strings, in
  the order the driver reads them; a timed-out read yields the empty string.
* Python machine floats are modelled by exact rationals: every numeric value
  the drivers format or compare (bounds, sleep delays, decimal replies) is a
  finite decimal, on which float arithmetic used here is exact.
* A method that can raise returns `Except String`, carrying the Python
  exception text; setters return the writes issued, the raise-or-ok outcome,
  and the post-call object state, so that raising leaves the state visible.
* Cached attribute values are `PyVal` (a Python scalar), since the drivers
  cache ints, floats, strings and booleans in the same slots.
-/

attribute [local semireducible] Rat.ofScientific Rat.mul Rat.inv Rat.add Rat.sub

/-- A Python scalar value as stored in the driver caches and returned by
getters. -/
inductive PyVal where
  | int (n : Int)
  | float (q : ℚ)
  | str (s : String)
  | bool (b : Bool)
  deriving Repr, DecidableEq

/-- Numeric view of a `PyVal` (Python booleans are integers). -/
def PyVal.numVal : PyVal → Option ℚ
  | .int n => some (n : ℚ)
  | .float q => some q
  | .bool b => some (if b then 1 else 0)
  | .str _ => none

/-- Python `==` on scalar values: numeric values compare across int, float
and bool; strings compare only to strings; mixed string and number is
`False`. -/
def pyEq (a b : PyVal) : Bool :=
  match a.numVal, b.numVal with
  | some x, some y => x == y
  | _, _ =>
    match a, b with
    | .str s, .str t => s == t
    | _, _ => false

/-- Whitespace characters stripped by Python `str.strip()`. -/
def pyWhitespace (c : Char) : Bool :=
  c == ' ' || c == '\t' || c == '\n' || c == '\r' || c == '\x0b' || c == '\x0c'

/-- Leading and trailing whitespace removed from a character list. -/
def trimChars (cs : List Char) : List Char :=
  ((cs.dropWhile pyWhitespace).reverse.dropWhile pyWhitespace).reverse

/-- Python `s.strip()`. -/
def pyStrip (s : String) : String :=
  String.mk (trimChars s.data)

/-- Python `s[:-k]` for `k > 0`: the string minus its last `k` characters
(empty when the string has at most `k` characters). -/
def pyDropLast (s : String) (k : Nat) : String :=
  String.mk (s.data.take (s.data.length - k))

/-- Value of a digit list, most significant first. -/
def digitsVal (cs : List Char) : Nat :=
  cs.foldl (fun a c => a * 10 + (c.toNat - 48)) 0

/-- Nonempty all-digit list parsed to a natural number, else `none`. -/
def digitsToNat (cs : List Char) : Option Nat :=
  if cs ≠ [] ∧ cs.all Char.isDigit then some (digitsVal cs) else none

/-- Python `int(s)`: optional sign around a nonempty digit string, with
surrounding whitespace allowed; raises (here `none`) otherwise. -/
def pyInt? (s : String) : Option Int :=
  match trimChars s.data with
  | '+' :: cs => (digitsToNat cs).map (fun n => (n : Int))
  | '-' :: cs => (digitsToNat cs).map (fun n => -(n : Int))
  | cs => (digitsToNat cs).map (fun n => (n : Int))

/-- The groups of a character list split at every dot. -/
def splitDot : List Char → List (List Char)
  | [] => [[]]
  | c :: cs =>
    if c = '.' then [] :: splitDot cs
    else
      match splitDot cs with
      | [] => [[c]]
      | g :: gs => (c :: g) :: gs

/-- Unsigned decimal literal `ddd`, `ddd.ddd`, `ddd.` or `.ddd` parsed to an
exact rational. Exponent forms, which no reply in these drivers uses, are not
modelled. -/
def pyFloatUnsigned (cs : List Char) : Option ℚ :=
  match splitDot cs with
  | [i] => (digitsToNat i).map (fun n => (n : ℚ))
  | [i, f] =>
    if i = [] ∧ f = [] then none
    else if i.all Char.isDigit ∧ f.all Char.isDigit then
      some ((digitsVal i : ℚ) + (digitsVal f : ℚ) / (10 ^ f.length))
    else none
  | _ => none

/-- Python `float(s)` on the decimal forms these instruments emit, as an
exact rational. -/
def pyFloat? (s : String) : Option ℚ :=
  match trimChars s.data with
  | '+' :: cs => pyFloatUnsigned cs
  | '-' :: cs => (pyFloatUnsigned cs).map Neg.neg
  | cs => pyFloatUnsigned cs

/-- Fractional decimal digits of `num / den` (at most `fuel` of them). -/
def fracDigits (fuel num den : Nat) : String :=
  match fuel with
  | 0 => ""
  | fuel + 1 =>
    if num = 0 then ""
    else toString (num * 10 / den) ++ fracDigits fuel (num * 10 % den) den

/-- Decimal rendering of a rational, matching the Python f-string rendering
of the finite-decimal float values these drivers format. -/
def pyFloatStr (q : ℚ) : String :=
  let sign := if q < 0 then "-" else ""
  let a := q.num.natAbs
  let b := q.den
  let frac := fracDigits 17 (a % b) b
  sign ++ toString (a / b) ++ "." ++ (if frac = "" then "0" else frac)

/-- State of a pyserial serial port, as far as the drivers observe it. -/
structure SerialPort where
  is_open : Bool := true
  deriving Repr, DecidableEq

/-- Modelled from the spec: the transport is an external collaborator (spec
section 1 treats the serial port as provided by the platform serial library).
pyserial `Serial.close()` is idempotent: closing an already-closed port is a
no-op and raises nothing, so the modelled close always succeeds. -/
def serial_close (p : SerialPort) : Except String SerialPort :=
  .ok { p with is_open := false }

/-- Cached state of a `BiPhotonSource` object (the v1, QES 2.4 driver). The
underscore-prefixed Python cache slots keep their names without the
underscore. -/
structure BPState where
  serial : SerialPort := {}
  comm_wait : ℚ := 1
  temperature : Option PyVal := none
  temperature_setpoint : Option PyVal := none
  current : Option PyVal := none
  voltage : Option PyVal := none
  fault_status : Option PyVal := none
  heating_state : Option PyVal := none
  firmware_version : Option PyVal := none
  laser_on : PyVal := .bool false
  laser_power : Option PyVal := none
  laser_current : Option PyVal := none
  laser_status : Option PyVal := none
  deriving Repr, DecidableEq

namespace BiPhotonSource

/-- `BiPhotonSource.__init__`: opens the port and initialises every cache
slot to `None` except `_laser_on = False`. -/
def init (comm_delay : ℚ) : BPState :=
  { comm_wait := comm_delay }

/-- `temperature` getter: `_query("TEMP?")`, `float(response)`, cache and
return. `_query` writes `cmd + "\r\n"`; the reply is stripped before
parsing. A parse failure raises and leaves the cache untouched. -/
def temperature_get (s : BPState) (reply : String) :
    List String × Except String PyVal × BPState :=
  match pyFloat? (pyStrip reply) with
  | some q =>
    (["TEMP?" ++ "\r\n"], .ok (.float q), { s with temperature := some (.float q) })
  | none => (["TEMP?" ++ "\r\n"], .error "ValueError: could not convert string to float", s)

/-- `temperature_setpoint` setter: validates `10000 <= value <= 50000`,
then `_write(f":SETT {value}")` and caches the value. -/
def temperature_setpoint_set (s : BPState) (value : Int) :
    List String × Except String Unit × BPState :=
  if ¬ (10000 ≤ value ∧ value ≤ 50000) then
    ([], .error "Temperature setpoint must be between 10000 and 50000.", s)
  else
    ([":SETT " ++ toString value ++ "\r\n"], .ok (),
      { s with temperature_setpoint := some (.int value) })

/-- `laser_power` getter: `_query("PLDC?")`, `int(response)`, cache and
return. -/
def laser_power_get (s : BPState) (reply : String) :
    List String × Except String PyVal × BPState :=
  match pyInt? (pyStrip reply) with
  | some n =>
    (["PLDC?" ++ "\r\n"], .ok (.int n), { s with laser_power := some (.int n) })
  | none => (["PLDC?" ++ "\r\n"], .error "ValueError: invalid literal for int", s)

/-- `laser_power` setter: validates `0 <= value <= 8000`, then
`_write(f":PLSD {value}")` and caches the value. -/
def laser_power_set (s : BPState) (value : Int) :
    List String × Except String Unit × BPState :=
  if ¬ (0 ≤ value ∧ value ≤ 8000) then
    ([], .error "Laser power must be between 0 and 8000.", s)
  else
    ([":PLSD " ++ toString value ++ "\r\n"], .ok (),
      { s with laser_power := some (.int value) })

/-- `laser_current` setter: validates `20 <= value <= 120`, then
`_write(f":PLDC {value}")` and caches the value. -/
def laser_current_set (s : BPState) (value : Int) :
    List String × Except String Unit × BPState :=
  if ¬ (20 ≤ value ∧ value ≤ 120) then
    ([], .error "Laser diode current must be between 20 and 120 mA.", s)
  else
    ([":PLDC " ++ toString value ++ "\r\n"], .ok (),
      { s with laser_current := some (.int value) })

/-- `close`: `self.serial.close()`; the transport close never raises. -/
def close (s : BPState) : Except String BPState :=
  (serial_close s.serial).map (fun p => { s with serial := p })

end BiPhotonSource

/-- State of a `CoincidenceCounter` object: the settle delay and the
`_dwell_time` cache (a float in seconds once set, `None` at construction). -/
structure CCState where
  serial : SerialPort := {}
  comm_wait : ℚ := 0
  dwell_time : Option ℚ := none
  deriving Repr, DecidableEq

namespace CoincidenceCounter

/-- `CoincidenceCounter.__init__`: opens the port, stores the settle delay,
sets `_dwell_time = None`. -/
def init (comm_delay : ℚ) : CCState :=
  { comm_wait := comm_delay }

/-- `dwell_time` getter: writes `b"DWEL?\n"`, takes the reply minus its last
three characters as `time_in_ms`, caches `float(int(time_in_ms) * 1e-3)`
(the count converted to seconds) and returns the string
`f"{time_in_ms} ms"`. -/
def dwell_time_get (c : CCState) (reply : String) :
    List String × Except String PyVal × CCState :=
  let time_in_ms := pyDropLast reply 3
  match pyInt? time_in_ms with
  | some n =>
    (["DWEL?" ++ "\n"], .ok (.str (time_in_ms ++ " ms")),
      { c with dwell_time := some ((n : ℚ) / 1000) })
  | none => (["DWEL?" ++ "\n"], .error "ValueError: invalid literal for int", c)

/-- `dwell_time` setter: validates `value < 0.1 or value > 30`, then writes
`f":DWEL {value}\n"` and caches the value in seconds. -/
def dwell_time_set (c : CCState) (value : ℚ) :
    List String × Except String Unit × CCState :=
  if value < 0.1 ∨ value > 30 then
    ([], .error "Dwell time must be between 0.1 and 30s", c)
  else
    ([":DWEL " ++ pyFloatStr value ++ "\n"], .ok (),
      { c with dwell_time := some value })

/-- `coincidence_window` setter: validates `value not in range(1, 9)`, then
writes `f":WIND {value}\n"`; nothing is cached. -/
def coincidence_window_set (c : CCState) (value : Int) :
    List String × Except String Unit × CCState :=
  if ¬ (1 ≤ value ∧ value ≤ 8) then
    ([], .error "Coincidence window must be between 1 and 8 ns", c)
  else
    ([":WIND " ++ toString value ++ "\n"], .ok (), c)

/-- `ch1_delay` setter: validates membership in `[0, 2, 4, 6, 8, 10, 12, 14]`,
then writes `f":DELA {value}\n"`; nothing is cached. -/
def ch1_delay_set (c : CCState) (value : Int) :
    List String × Except String Unit × CCState :=
  if value ∉ ([0, 2, 4, 6, 8, 10, 12, 14] : List Int) then
    ([], .error "Ch1_delay window must be even number in [0,14]", c)
  else
    ([":DELA " ++ toString value ++ "\n"], .ok (), c)

/-- `measure_channels`: writes `b":COUN:ON\n"`, then evaluates
`time.sleep(self.comm_wait + self._dwell_time)` — a `TypeError` when
`_dwell_time` is still `None`. Otherwise it reads and discards one line
(reply 0), then for each of `COUN:C1?`, `COUN:C2?`, `COUN:CO?` writes the
query, sleeps `comm_wait` and reads a line stripped of its final character
(replies 1..3); the three `int(...)` conversions all happen in the final
return statement, after every write. A missing reply reads as the empty
string (timeout). -/
def measure_channels (c : CCState) (replies : List String) :
    List String × List ℚ × Except String (Int × Int × Int) :=
  match c.dwell_time with
  | none =>
    ([":COUN:ON" ++ "\n"], [],
      .error "TypeError: unsupported operand for +: float and NoneType")
  | some d =>
    let ch1 := pyDropLast (replies.getD 1 "") 1
    let ch2 := pyDropLast (replies.getD 2 "") 1
    let co := pyDropLast (replies.getD 3 "") 1
    ([":COUN:ON" ++ "\n", "COUN:C1?" ++ "\n", "COUN:C2?" ++ "\n", "COUN:CO?" ++ "\n"],
      [c.comm_wait + d, c.comm_wait, c.comm_wait, c.comm_wait],
      match pyInt? ch1, pyInt? ch2, pyInt? co with
      | some a, some b, some k => .ok (a, b, k)
      | _, _, _ => .error "ValueError: invalid literal for int")

/-- `__del__`: closes the serial port. -/
def __del__ (c : CCState) : Except String CCState :=
  (serial_close c.serial).map (fun p => { c with serial := p })

/-- `close`: the statement `self.serial.close` is a bare attribute access
(no call, hence a no-op); then `self.__del__()` closes the port. -/
def close (c : CCState) : Except String CCState :=
  __del__ c

end CoincidenceCounter

/-- State of a `MotorDriver` object: only the settle delay and the port. -/
structure MotorState where
  serial : SerialPort := {}
  comm_wait : ℚ := 0
  deriving Repr, DecidableEq

/-- An observable construction-time event of a driver session. -/
inductive Ev where
  | open_port
  | sleep (t : ℚ)
  | write (s : String)
  deriving Repr, DecidableEq

/-- The string written by a `write` event, if any. -/
def Ev.write_str : Ev → Option String
  | .write s => some s
  | _ => none

namespace MotorDriver

/-- `MotorDriver.__init__`: opens the port, stores the settle delay, then
`time.sleep(0.1)` and `self.serial.write(b":LEDO\n")`. The event list
records the construction-time transport activity in order. -/
def init (_port : String) (comm_delay : ℚ) : MotorState × List Ev :=
  ({ comm_wait := comm_delay }, [.open_port, .sleep 0.1, .write (":LEDO" ++ "\n")])

/-- `position` getter: writes `b"POSI?\n"`, reads a line minus its final
character; if that string is empty the getter re-invokes itself
(`position_str = self.position`) on the remaining replies — recursion with
no cap, modelled with explicit fuel where running out of fuel (`none`)
stands for the recursion never returning. On a nonempty string it returns
`float(position_str)` together with the number of `POSI?` queries issued. -/
def position_get : Nat → List String → Option (Except String (ℚ × Nat))
  | 0, _ => none
  | fuel + 1, replies =>
    let position_str := pyDropLast (replies.headD "") 1
    if position_str = "" then
      (position_get fuel replies.tail).map (fun e => e.map (fun r => (r.1, r.2 + 1)))
    else
      some (match pyFloat? position_str with
        | some v => .ok (v, 1)
        | none => .error "ValueError: could not convert string to float")

/-- `position` setter: validates `value < 1 or value > 29`, then writes
`f":MOVE ABS {value}\n"`; nothing is cached. -/
def position_set (m : MotorState) (value : ℚ) :
    List String × Except String Unit × MotorState :=
  if value < 1 ∨ value > 29 then
    ([], .error "Motor position must be between 0 and 29 mm", m)
  else
    ([":MOVE ABS " ++ pyFloatStr value ++ "\n"], .ok (), m)

end MotorDriver

/-! ## Claim theorems -/

/-- Claim C1: every attribute setter with a bounded domain (temperature
setpoint, laser power, laser diode current, dwell time, coincidence window,
channel delay, motor position) rejects an out-of-domain value with a
`ValueError` raised before any bytes reach the transport: the write list is
empty and the object state, hence every cached attribute, is returned
unchanged. -/
theorem bounded_setters_reject_out_of_domain
    (s : BPState) (c : CCState) (m : MotorState)
    (a b cur : Int) (dw : ℚ) (wi de : Int) (p : ℚ) :
    (¬ (10000 ≤ a ∧ a ≤ 50000) →
      BiPhotonSource.temperature_setpoint_set s a =
        ([], .error "Temperature setpoint must be between 10000 and 50000.", s)) ∧
    (¬ (0 ≤ b ∧ b ≤ 8000) →
      BiPhotonSource.laser_power_set s b =
        ([], .error "Laser power must be between 0 and 8000.", s)) ∧
    (¬ (20 ≤ cur ∧ cur ≤ 120) →
      BiPhotonSource.laser_current_set s cur =
        ([], .error "Laser diode current must be between 20 and 120 mA.", s)) ∧
    (dw < 0.1 ∨ dw > 30 →
      CoincidenceCounter.dwell_time_set c dw =
        ([], .error "Dwell time must be between 0.1 and 30s", c)) ∧
    (¬ (1 ≤ wi ∧ wi ≤ 8) →
      CoincidenceCounter.coincidence_window_set c wi =
        ([], .error "Coincidence window must be between 1 and 8 ns", c)) ∧
    (de ∉ ([0, 2, 4, 6, 8, 10, 12, 14] : List Int) →
      CoincidenceCounter.ch1_delay_set c de =
        ([], .error "Ch1_delay window must be even number in [0,14]", c)) ∧
    (p < 1 ∨ p > 29 →
      MotorDriver.position_set m p =
        ([], .error "Motor position must be between 0 and 29 mm", m)) := by
  refine ⟨fun h => ?_, fun h => ?_, fun h => ?_, fun h => ?_, fun h => ?_,
    fun h => ?_, fun h => ?_⟩
  · unfold BiPhotonSource.temperature_setpoint_set; rw [if_pos h]
  · unfold BiPhotonSource.laser_power_set; rw [if_pos h]
  · unfold BiPhotonSource.laser_current_set; rw [if_pos h]
  · unfold CoincidenceCounter.dwell_time_set; rw [if_pos h]
  · unfold CoincidenceCounter.coincidence_window_set; rw [if_pos h]
  · unfold CoincidenceCounter.ch1_delay_set; rw [if_pos h]
  · unfold MotorDriver.position_set; rw [if_pos h]

/-- Claim C1 witness: concrete out-of-domain values, among them laser diode
current 150, are rejected with no write and no state change. -/
theorem bounded_setters_reject_out_of_domain_witness :
    BiPhotonSource.temperature_setpoint_set (BiPhotonSource.init 1) 60000 =
      ([], .error "Temperature setpoint must be between 10000 and 50000.",
        BiPhotonSource.init 1) ∧
    BiPhotonSource.laser_power_set (BiPhotonSource.init 1) 9000 =
      ([], .error "Laser power must be between 0 and 8000.", BiPhotonSource.init 1) ∧
    BiPhotonSource.laser_current_set (BiPhotonSource.init 1) 150 =
      ([], .error "Laser diode current must be between 20 and 120 mA.",
        BiPhotonSource.init 1) ∧
    CoincidenceCounter.dwell_time_set (CoincidenceCounter.init 0) 31 =
      ([], .error "Dwell time must be between 0.1 and 30s", CoincidenceCounter.init 0) ∧
    CoincidenceCounter.coincidence_window_set (CoincidenceCounter.init 0) 9 =
      ([], .error "Coincidence window must be between 1 and 8 ns",
        CoincidenceCounter.init 0) ∧
    CoincidenceCounter.ch1_delay_set (CoincidenceCounter.init 0) 3 =
      ([], .error "Ch1_delay window must be even number in [0,14]",
        CoincidenceCounter.init 0) ∧
    MotorDriver.position_set (MotorDriver.init "COM3" 0).1 30 =
      ([], .error "Motor position must be between 0 and 29 mm",
        (MotorDriver.init "COM3" 0).1) :=
  have t := bounded_setters_reject_out_of_domain (BiPhotonSource.init 1)
    (CoincidenceCounter.init 0) (MotorDriver.init "COM3" 0).1 60000 9000 150 31 9 3 30
  ⟨t.1 (by decide), t.2.1 (by decide), t.2.2.1 (by decide), t.2.2.2.1 (by decide),
    t.2.2.2.2.1 (by decide), t.2.2.2.2.2.1 (by decide), t.2.2.2.2.2.2 (by decide)⟩

/-- Claim C2 counterexample: setting laser power to the in-range value 100
on a fresh v1 session writes the single command string ":PLSD 100" plus the
terminator; the verb PLDC occurs nowhere in the bytes written, refuting that
PLDC is the laser power set verb. -/
theorem laser_power_set_writes_plsd_not_pldc :
    (BiPhotonSource.laser_power_set (BiPhotonSource.init 1) 100).1 =
      [":PLSD 100" ++ "\r\n"] ∧
    (":PLSD 100" ++ "\r\n" : String) ≠ (":PLDC 100" ++ "\r\n" : String) ∧
    ¬ (":PLDC").data <:+: (":PLSD 100" ++ "\r\n").data :=
  ⟨rfl, by decide, by decide⟩

/-- Claim C2 amended: on the v1 bi-photon source the set verb for laser
optical power (domain 0 to 8000) is PLSD, while PLDC? stays its query verb;
the set verb for laser diode current (domain 20 to 120) is PLDC. The
asymmetric pairing is the reverse of the claimed one. -/
theorem laser_set_verbs (s : BPState) (v w : Int) (reply : String)
    (hv1 : 0 ≤ v) (hv2 : v ≤ 8000) (hw1 : 20 ≤ w) (hw2 : w ≤ 120) :
    BiPhotonSource.laser_power_set s v =
      ([":PLSD " ++ toString v ++ "\r\n"], .ok (),
        { s with laser_power := some (.int v) }) ∧
    BiPhotonSource.laser_current_set s w =
      ([":PLDC " ++ toString w ++ "\r\n"], .ok (),
        { s with laser_current := some (.int w) }) ∧
    (BiPhotonSource.laser_power_get s reply).1 = ["PLDC?" ++ "\r\n"] := by
  refine ⟨?_, ?_, ?_⟩
  · unfold BiPhotonSource.laser_power_set; rw [if_neg (by omega)]
  · unfold BiPhotonSource.laser_current_set; rw [if_neg (by omega)]
  · unfold BiPhotonSource.laser_power_get
    cases hp : pyInt? (pyStrip reply) <;> rfl

/-- Claim C2 amended witness: at laser power 100 and laser current 50 the
commands written are ":PLSD 100" and ":PLDC 50". -/
theorem laser_set_verbs_witness :
    BiPhotonSource.laser_power_set (BiPhotonSource.init 1) 100 =
      ([":PLSD 100" ++ "\r\n"], .ok (),
        { BiPhotonSource.init 1 with laser_power := some (.int 100) }) ∧
    BiPhotonSource.laser_current_set (BiPhotonSource.init 1) 50 =
      ([":PLDC 50" ++ "\r\n"], .ok (),
        { BiPhotonSource.init 1 with laser_current := some (.int 50) }) ∧
    (BiPhotonSource.laser_power_get (BiPhotonSource.init 1) ("100" ++ "\n")).1 =
      ["PLDC?" ++ "\r\n"] :=
  have t := laser_set_verbs (BiPhotonSource.init 1) 100 50 ("100" ++ "\n")
    (by decide) (by decide) (by decide) (by decide)
  ⟨t.1.trans rfl, t.2.1.trans rfl, t.2.2⟩

/-- Claim C3: on the v1 driver, for every integer v in [10000, 50000],
setting the temperature setpoint writes exactly one command, the string
":SETT " followed by the decimal rendering of v and the terminator (its
UTF-8 encoding being the bytes sent), and afterwards the cached setpoint
equals v. -/
theorem temperature_setpoint_set_encodes (s : BPState) (v : Int)
    (h1 : 10000 ≤ v) (h2 : v ≤ 50000) :
    BiPhotonSource.temperature_setpoint_set s v =
      ([":SETT " ++ toString v ++ "\r\n"], .ok (),
        { s with temperature_setpoint := some (.int v) }) ∧
    ((BiPhotonSource.temperature_setpoint_set s v).2.2).temperature_setpoint =
      some (.int v) := by
  have e : BiPhotonSource.temperature_setpoint_set s v =
      ([":SETT " ++ toString v ++ "\r\n"], .ok (),
        { s with temperature_setpoint := some (.int v) }) := by
    unfold BiPhotonSource.temperature_setpoint_set
    rw [if_neg (by omega)]
  exact ⟨e, by rw [e]⟩

/-- Claim C3 witness: setting 25000 sends ":SETT 25000" plus terminator and
the cache then reads 25000. -/
theorem temperature_setpoint_set_encodes_witness :
    BiPhotonSource.temperature_setpoint_set (BiPhotonSource.init 1) 25000 =
      ([":SETT 25000" ++ "\r\n"], .ok (),
        { BiPhotonSource.init 1 with temperature_setpoint := some (.int 25000) }) ∧
    ((BiPhotonSource.temperature_setpoint_set (BiPhotonSource.init 1) 25000).2.2).temperature_setpoint =
      some (.int 25000) :=
  have t := temperature_setpoint_set_encodes (BiPhotonSource.init 1) 25000
    (by decide) (by decide)
  ⟨t.1.trans rfl, t.2⟩

/-- Claim C4: after the dwell time has been set to 2.0 s, running
`measure_channels` against reply lines 10, 20 and 3 (after the discarded
arm-phase read) issues the arm command and the three count queries, returns
the triple (10, 20, 3), and the sleep between the arm write and the first
count query is `comm_wait + 2`, which is at least `2 + comm_wait`. -/
theorem measure_channels_after_dwell_two (s : CCState) (l0 : String) :
    CoincidenceCounter.measure_channels ((CoincidenceCounter.dwell_time_set s 2).2.2)
        [l0, "10" ++ "\n", "20" ++ "\n", "3" ++ "\n"] =
      ([":COUN:ON" ++ "\n", "COUN:C1?" ++ "\n", "COUN:C2?" ++ "\n", "COUN:CO?" ++ "\n"],
        [s.comm_wait + 2, s.comm_wait, s.comm_wait, s.comm_wait],
        .ok (10, 20, 3)) ∧
    2 + s.comm_wait ≤ s.comm_wait + 2 := by
  have h : (CoincidenceCounter.dwell_time_set s 2).2.2 = { s with dwell_time := some 2 } := by
    unfold CoincidenceCounter.dwell_time_set
    rw [if_neg (by norm_num)]
  exact ⟨by rw [h]; rfl, le_of_eq (add_comm 2 s.comm_wait)⟩

/-- Claim C4 witness: on a session with settle delay 0 and dwell time set to
2, the measurement returns (10, 20, 3) and the arm-phase sleep is 2. -/
theorem measure_channels_after_dwell_two_witness :
    CoincidenceCounter.measure_channels
        ((CoincidenceCounter.dwell_time_set (CoincidenceCounter.init 0) 2).2.2)
        ["\n", "10" ++ "\n", "20" ++ "\n", "3" ++ "\n"] =
      ([":COUN:ON" ++ "\n", "COUN:C1?" ++ "\n", "COUN:C2?" ++ "\n", "COUN:CO?" ++ "\n"],
        [0 + 2, 0, 0, 0],
        .ok (10, 20, 3)) :=
  (measure_channels_after_dwell_two (CoincidenceCounter.init 0) "\n").1.trans rfl

/-- Claim C5 amended: for a scalar-parsing getter such as the bi-photon
source temperature getter, the returned value equals the parsed reply and
equals the post-call cache. The coincidence counter dwell_time getter
violates the claim: it returns the formatted string built from the raw
reply minus three characters plus " ms", while caching that count converted
to seconds, and a Python string never compares equal to a float. -/
theorem getter_return_vs_cache
    (s : BPState) (c : CCState) (reply replyd : String) (q : ℚ) (n : Int)
    (hq : pyFloat? (pyStrip reply) = some q)
    (hn : pyInt? (pyDropLast replyd 3) = some n) :
    BiPhotonSource.temperature_get s reply =
      (["TEMP?" ++ "\r\n"], .ok (.float q), { s with temperature := some (.float q) }) ∧
    CoincidenceCounter.dwell_time_get c replyd =
      (["DWEL?" ++ "\n"], .ok (.str (pyDropLast replyd 3 ++ " ms")),
        { c with dwell_time := some ((n : ℚ) / 1000) }) ∧
    pyEq (.str (pyDropLast replyd 3 ++ " ms")) (.float ((n : ℚ) / 1000)) = false := by
  refine ⟨?_, ?_, rfl⟩
  · unfold BiPhotonSource.temperature_get; rw [hq]
  · simp only [CoincidenceCounter.dwell_time_get, hn]

/-- Claim C5 witness: the temperature getter on reply 25.5 returns and
caches 25.5; the dwell_time getter on a reply carrying count 1000 returns
the string "1000 ms" while caching the float 1. -/
theorem getter_return_vs_cache_witness :
    BiPhotonSource.temperature_get (BiPhotonSource.init 1) ("25.5" ++ "\n") =
      (["TEMP?" ++ "\r\n"], .ok (.float (51 / 2)),
        { BiPhotonSource.init 1 with temperature := some (.float (51 / 2)) }) ∧
    CoincidenceCounter.dwell_time_get (CoincidenceCounter.init 0) ("1000ms" ++ "\n") =
      (["DWEL?" ++ "\n"], .ok (.str "1000 ms"),
        { CoincidenceCounter.init 0 with dwell_time := some 1 }) ∧
    pyEq (.str "1000 ms") (.float 1) = false :=
  have t := getter_return_vs_cache (BiPhotonSource.init 1) (CoincidenceCounter.init 0)
    ("25.5" ++ "\n") ("1000ms" ++ "\n") (51 / 2) 1000 (by decide) (by decide)
  ⟨t.1.trans rfl, t.2.1.trans rfl, t.2.2⟩

/-- Claim C5 counterexample: with the transport echoing the fixed reply
line "1000ms", the dwell_time getter returns the string "1000 ms" while
the post-call cache holds the float 1 (seconds) and the parsed reply is the
integer 1000; the returned value equals neither, refuting the universal
return-equals-cache claim. -/
theorem dwell_time_get_return_ne_cache :
    (CoincidenceCounter.dwell_time_get (CoincidenceCounter.init 0) ("1000ms" ++ "\n")).2.1 =
      .ok (.str "1000 ms") ∧
    ((CoincidenceCounter.dwell_time_get (CoincidenceCounter.init 0) ("1000ms" ++ "\n")).2.2).dwell_time =
      some 1 ∧
    pyEq (.str "1000 ms") (.float 1) = false ∧
    pyEq (.str "1000 ms") (.int 1000) = false :=
  ⟨rfl, by decide, rfl, rfl⟩

/-- Claim C6 (code defect): the motor position getter has no retry cap. On
a reply stream whose lines are all empty the recursion never produces a
result at any recursion depth (no CommunicationError is ever surfaced), and
with two empty replies followed by "14.5" it issues three POSI? queries —
two automatic retries, not at most one — and still returns 14.5. -/
theorem position_get_retries_unbounded :
    (∀ (fuel : Nat) (replies : List String),
      (∀ r ∈ replies, pyDropLast r 1 = "") →
      MotorDriver.position_get fuel replies = none) ∧
    MotorDriver.position_get 10 ["", "", "14.5" ++ "\n"] =
      some (.ok ((14.5 : ℚ), 3)) := by
  constructor
  · intro fuel
    induction fuel with
    | zero => intro replies _; rfl
    | succ n ih =>
      intro replies h
      have hh : pyDropLast (replies.headD "") 1 = "" := by
        cases replies with
        | nil => rfl
        | cons a t => exact h a (List.mem_cons_self a t)
      have ht : ∀ r ∈ replies.tail, pyDropLast r 1 = "" := by
        intro r hr
        exact h r (List.mem_of_mem_tail hr)
      simp only [MotorDriver.position_get, hh, if_pos, ih replies.tail ht,
        Option.map_none']
  · rfl

/-- Claim C6 witness: a single blank reply line yields no result at depth 3,
and the concrete three-query trace returns 14.5 after two retries. -/
theorem position_get_retries_unbounded_witness :
    MotorDriver.position_get 3 ["\n"] = none ∧
    MotorDriver.position_get 10 ["", "", "14.5" ++ "\n"] =
      some (.ok ((14.5 : ℚ), 3)) :=
  ⟨position_get_retries_unbounded.1 3 ["\n"] (by decide),
    position_get_retries_unbounded.2⟩

/-- Claim C7: when the position query reads an empty line once and "14.5"
on the automatic retry, the getter returns the float 14.5 (having issued
exactly two queries), at any spare recursion depth. -/
theorem position_get_empty_then_value (fuel : Nat) :
    MotorDriver.position_get (fuel + 2) ["", "14.5" ++ "\n"] =
      some (.ok ((14.5 : ℚ), 2)) := by
  have h1 : MotorDriver.position_get (fuel + 2) ["", "14.5" ++ "\n"] =
      (MotorDriver.position_get (fuel + 1) ["14.5" ++ "\n"]).map
        (fun e => e.map (fun r => (r.1, r.2 + 1))) := rfl
  rw [h1]
  rfl

/-- Claim C7 witness: the concrete two-reply run at depth 2. -/
theorem position_get_empty_then_value_witness :
    MotorDriver.position_get 2 ["", "14.5" ++ "\n"] =
      some (.ok ((14.5 : ℚ), 2)) :=
  position_get_empty_then_value 0

/-- Claim C8: closing a bi-photon source or coincidence counter session
twice in succession raises nothing: both the first and the second close
return a state, the transport close being idempotent. -/
theorem close_twice_no_raise (s : BPState) (c : CCState) :
    (∃ s1 s2, BiPhotonSource.close s = .ok s1 ∧ BiPhotonSource.close s1 = .ok s2) ∧
    (∃ c1 c2, CoincidenceCounter.close c = .ok c1 ∧ CoincidenceCounter.close c1 = .ok c2) :=
  ⟨⟨_, _, rfl, rfl⟩, ⟨_, _, rfl, rfl⟩⟩

/-- Claim C8 witness: double close on fresh sessions. -/
theorem close_twice_no_raise_witness :
    (∃ s1 s2, BiPhotonSource.close (BiPhotonSource.init 1) = .ok s1 ∧
      BiPhotonSource.close s1 = .ok s2) ∧
    (∃ c1 c2, CoincidenceCounter.close (CoincidenceCounter.init 0) = .ok c1 ∧
      CoincidenceCounter.close c1 = .ok c2) :=
  close_twice_no_raise (BiPhotonSource.init 1) (CoincidenceCounter.init 0)

/-- Claim C9: on a freshly constructed coincidence counter session the
dwell-time cache is `None`, so `measure_channels` writes the arm command and
then fails with a TypeError when the arm sleep adds `comm_wait` to `None`;
once the cache holds a dwell time, that TypeError cannot occur. -/
theorem measure_channels_fresh_session_type_error :
    (∀ (d : ℚ) (replies : List String),
      CoincidenceCounter.measure_channels (CoincidenceCounter.init d) replies =
        ([":COUN:ON" ++ "\n"], [],
          .error "TypeError: unsupported operand for +: float and NoneType")) ∧
    (∀ (c : CCState) (q : ℚ) (replies : List String), c.dwell_time = some q →
      (CoincidenceCounter.measure_channels c replies).2.2 ≠
        .error "TypeError: unsupported operand for +: float and NoneType") := by
  constructor
  · intro d replies; rfl
  · intro c q replies h
    simp only [CoincidenceCounter.measure_channels, h]
    cases h1 : pyInt? (pyDropLast (replies.getD 1 "") 1) <;>
      cases h2 : pyInt? (pyDropLast (replies.getD 2 "") 1) <;>
        cases h3 : pyInt? (pyDropLast (replies.getD 3 "") 1) <;>
          simp

/-- Claim C9 witness: the fresh-session failure at settle delay 0, and the
absence of the TypeError once the dwell time is 2. -/
theorem measure_channels_fresh_session_type_error_witness :
    CoincidenceCounter.measure_channels (CoincidenceCounter.init 0) [] =
      ([":COUN:ON" ++ "\n"], [],
        .error "TypeError: unsupported operand for +: float and NoneType") ∧
    (CoincidenceCounter.measure_channels
        { CoincidenceCounter.init 0 with dwell_time := some 2 } []).2.2 ≠
      .error "TypeError: unsupported operand for +: float and NoneType" :=
  ⟨measure_channels_fresh_session_type_error.1 0 [],
    measure_channels_fresh_session_type_error.2
      { CoincidenceCounter.init 0 with dwell_time := some 2 } 2 [] rfl⟩

/-- Claim C10: constructing a motor driver session opens the port, pauses
0.1 s, and performs exactly one transport write, the command ":LEDO" plus
newline, in that order, for every port name and settle delay. -/
theorem motor_init_sends_ledo (port : String) (d : ℚ) :
    (MotorDriver.init port d).2 = [.open_port, .sleep 0.1, .write (":LEDO" ++ "\n")] ∧
    ((MotorDriver.init port d).2.filterMap Ev.write_str) = [":LEDO" ++ "\n"] :=
  ⟨rfl, rfl⟩

/-- Claim C10 witness: the construction trace at a concrete port and the
default settle delay. -/
theorem motor_init_sends_ledo_witness :
    (MotorDriver.init "COM3" 0).2 = [.open_port, .sleep 0.1, .write (":LEDO" ++ "\n")] ∧
    ((MotorDriver.init "COM3" 0).2.filterMap Ev.write_str) = [":LEDO" ++ "\n"] :=
  motor_init_sends_ledo "COM3" 0
